import Mathlib

/-!
Verification of the `learn-langchain` example scripts.

The repository consists of two scripts, `use-agent-tool.py` and
`use-agent-with-memory-1.py`.  Their own logic is limited to three tool
handlers, environment-based model configuration, and a sequence of agent
invocations.  We embed the handlers and the configuration directly from the
source; the agent runtime (construction, invocation, checkpoint store) lives
in the external framework and is modelled from the specification's
description of its behaviour.
-/

namespace LearnLangchain

/-- Substring containment: `sub` occurs contiguously inside `s`.
Used to state the spec's "returns a string containing ..." properties. -/
def strContains (s sub : String) : Prop := sub.data <:+: s.data

instance (s sub : String) : Decidable (strContains s sub) :=
  List.decidableInfix sub.data s.data

theorem strContains_middle (a b c : String) : strContains (a ++ b ++ c) b := by
  unfold strContains
  rw [String.data_append, String.data_append]
  exact List.infix_append a.data b.data c.data

theorem strContains_append_left (a b sub : String)
    (h : strContains b sub) : strContains (a ++ b) sub := by
  unfold strContains at h ⊢
  rw [String.data_append]
  exact h.trans (List.IsSuffix.isInfix (List.suffix_append a.data b.data))

theorem strContains_append_right (a b sub : String)
    (h : strContains a sub) : strContains (a ++ b) sub := by
  unfold strContains at h ⊢
  rw [String.data_append]
  exact h.trans (List.IsPrefix.isInfix (List.prefix_append a.data b.data))

/-! ## `use-agent-tool.py`: the weather tool -/

/-- `get_weather(location)` from `use-agent-tool.py`:
`return f"The weather in {location} is sunny."` -/
def get_weather (location : String) : String :=
  "The weather in " ++ location ++ " is sunny."

example : get_weather "Tokyo" = "The weather in Tokyo is sunny." := rfl
example : strContains (get_weather "Tokyo") "sunny" := by decide

/-! ## `use-agent-with-memory-1.py`: profile and preference tools

The Python `profiles` value is a dict from user id to a profile dict whose
fields are heterogeneous: `'name'` maps to a string, `'preferences'` to a
string-to-string dict.  `PyField` captures the two value shapes; dicts are
embedded as association lists in literal (insertion) order, matching how
Python preserves and prints them. -/

/-- A value stored in a profile dict: either a string or a nested
string-to-string dict. -/
inductive PyField where
  | str : String → PyField
  | dict : List (String × String) → PyField
deriving DecidableEq, Repr

/-- Python `repr` of a string-to-string dict literal (no escaping occurs for
the literals in this program): `\x7b'k1': 'v1', 'k2': 'v2'\x7d`. -/
def pyDictRepr (d : List (String × String)) : String :=
  "\x7b" ++
    String.intercalate ", "
      (d.map (fun kv => "\x27" ++ kv.1 ++ "\x27: \x27" ++ kv.2 ++ "\x27")) ++
  "\x7d"

/-- How an f-string interpolates a `PyField`: `str()` of a string is the
string itself, `str()` of a dict is its `repr`. -/
def pyFieldStr : PyField → String
  | .str s => s
  | .dict d => pyDictRepr d

/-- Python `d.get(k, default)` on a dict embedded as an association list. -/
def dictGet {α : Type} (d : List (String × α)) (k : String) (dflt : α) : α :=
  match d.lookup k with
  | some v => v
  | none => dflt

/-- The fixed `profiles` dict literal inside `get_user_profile`. -/
def profiles : List (String × List (String × PyField)) :=
  [("user_123", [("name", .str "Alice"),
                 ("preferences", .dict [("theme", "dark"), ("language", "en")])]),
   ("user_456", [("name", .str "Bob"),
                 ("preferences", .dict [("theme", "light"), ("language", "zh")])])]

/-- `get_user_profile(user_id)` from `use-agent-with-memory-1.py`, with the
profile table factored out as a parameter (the script fixes it to
`profiles`):
`profile = profiles.get(user_id, {})` then
`return f"User: {profile.get('name', 'Unknown')}, Prefs: {profile.get('preferences', {})}"`. -/
def get_user_profile_in (table : List (String × List (String × PyField)))
    (user_id : String) : String :=
  let profile := dictGet table user_id []
  "User: " ++ pyFieldStr (dictGet profile "name" (.str "Unknown")) ++
    ", Prefs: " ++ pyFieldStr (dictGet profile "preferences" (.dict []))

/-- `get_user_profile(user_id)` as the script defines it. -/
def get_user_profile (user_id : String) : String :=
  get_user_profile_in profiles user_id

/-- `save_user_preference(user_id, key, value)`:
`return f"Saved preference: {user_id} - {key}: {value}"`. -/
def save_user_preference (user_id key value : String) : String :=
  "Saved preference: " ++ user_id ++ " - " ++ key ++ ": " ++ value

example :
    get_user_profile "user_123" =
      "User: Alice, Prefs: \x7b\x27theme\x27: \x27dark\x27, \x27language\x27: \x27en\x27\x7d" := by
  decide

example : get_user_profile "nobody" = "User: Unknown, Prefs: \x7b\x7d" := by decide

/-! ### A run model distinguishing defaulted from raising dict access

Python dict subscripting `d[k]` raises `KeyError` when `k` is absent;
`d.get(k, default)` never raises.  `get_user_profile` uses only the latter.
To state totality (claim about never raising) non-vacuously we give a run
model in `Except`, where the raising accessor is available, and observe the
embedded body never reaches an error. -/

/-- Python `d[k]`: raises `KeyError` when the key is absent. -/
def dictGetItem {α : Type} (d : List (String × α)) (k : String) :
    Except String α :=
  match d.lookup k with
  | some v => Except.ok v
  | none => Except.error ("KeyError: " ++ k)

/-- `get_user_profile` run in the `Except` model of Python evaluation.  Every
dict access in the source is a defaulted `.get`, so no step can throw. -/
def get_user_profile_run (table : List (String × List (String × PyField)))
    (user_id : String) : Except String String := do
  let profile := dictGet table user_id []
  let nm := dictGet profile "name" (.str "Unknown")
  let pf := dictGet profile "preferences" (.dict [])
  pure ("User: " ++ pyFieldStr nm ++ ", Prefs: " ++ pyFieldStr pf)

example : get_user_profile_run profiles "user_999" =
    Except.ok (get_user_profile "user_999") := rfl

/-! ## Environment-based model configuration

Both scripts build the model client as
`ChatOpenAI(model=os.getenv("MODEL_NAME"), base_url=os.getenv("BASE_URL"),
api_key=os.getenv("API_KEY"))`.  `os.getenv` with one argument returns the
value or `None`; no default is supplied and nothing is validated locally. -/

/-- The process environment: a map from variable name to optional value. -/
def Env : Type := String → Option String

/-- Python `os.getenv(k)`: the variable's value, or `None` when unset. -/
def os_getenv (env : Env) (k : String) : Option String := env k

/-- The keyword arguments passed to `ChatOpenAI` in both scripts. -/
structure ClientConfig where
  model : Option String
  base_url : Option String
  api_key : Option String
deriving DecidableEq, Repr

/-- The `ChatOpenAI(...)` construction shared by the two scripts: each field
is the bare `os.getenv` result for its variable. -/
def configureModel (env : Env) : ClientConfig :=
  { model := os_getenv env "MODEL_NAME"
    base_url := os_getenv env "BASE_URL"
    api_key := os_getenv env "API_KEY" }

/-! ## The agent runtime with thread-scoped memory

`create_agent` / `agent.invoke` / `InMemorySaver` are the external
framework; only their callers are in this repository.  The model below
follows §4.1 of the specification. -/

/-- A chat message: a role and a content string. -/
structure Message where
  role : String
  content : String
deriving DecidableEq, Repr

/-- Modelled from the spec: the `InMemorySaver` checkpoint store, persisting
a message history keyed by thread identifier ("an external component that
persists and retrieves conversation state keyed by thread identifier").
An association list; the most recent checkpoint for a thread shadows
earlier ones. -/
def Store : Type := List (String × List Message)

/-- The history the store holds for a thread: the latest checkpoint, or the
empty history when the thread has never been seen. -/
def Store.history (store : Store) (tid : String) : List Message :=
  (store.lookup tid).getD []

/-- Modelled from the spec: `invoke(agent, initial_state, thread_id?)`
("If a checkpoint store and thread id are supplied, the store is consulted
first to merge/seed prior state, and is updated afterward with the new
state.  Without a thread id, each call is stateless (fresh empty history
per call)."; "the message sequence is append-only across turns within one
thread").  `input` is the user turn(s) supplied to the call and `reply` the
turn(s) the remote model and its tool calls produce; both are appended to
the seeded history.  Returns the updated history together with the updated
store. -/
def invoke (store : Store) (tid : Option String)
    (input reply : List Message) : List Message × Store :=
  match tid with
  | none => (input ++ reply, store)
  | some t =>
      let hist := Store.history store t ++ input ++ reply
      (hist, (t, hist) :: store)

example :
    (invoke [] (some "thread_001") [⟨"user", "Hi"⟩] [⟨"assistant", "Hello"⟩]).1 =
      [⟨"user", "Hi"⟩, ⟨"assistant", "Hello"⟩] := by decide

/-! ## Further containment helpers -/

theorem strContains_self (s : String) : strContains s s :=
  List.infix_rfl

/-! ## Claim theorems -/

/-- C2: for every string `location`, `get_weather location` contains
`location` as a substring and contains the word "sunny". -/
theorem get_weather_contains (location : String) :
    strContains (get_weather location) location ∧
    strContains (get_weather location) "sunny" := by
  constructor
  · exact strContains_middle "The weather in " location " is sunny."
  · exact strContains_append_left "The weather in " _ "sunny"
      (strContains_append_left location " is sunny." "sunny" (by decide))

/-- C10: for every string `location`, `get_weather location` is exactly the
fixed template `"The weather in " ++ location ++ " is sunny."`, both as a
string and character-by-character. -/
theorem get_weather_template (location : String) :
    get_weather location = "The weather in " ++ location ++ " is sunny." ∧
    (get_weather location).data =
      "The weather in ".data ++ location.data ++ " is sunny.".data := by
  refine ⟨rfl, ?_⟩
  show ("The weather in " ++ (location ++ " is sunny.")).data = _
  rw [String.data_append, String.data_append, List.append_assoc]

/-- C3: `get_user_profile "user_123"` contains "Alice" and the Python
representation of the mapping `\x7b"theme": "dark", "language": "en"\x7d`. -/
theorem get_user_profile_user123 :
    get_user_profile "user_123" =
      "User: Alice, Prefs: \x7b\x27theme\x27: \x27dark\x27, \x27language\x27: \x27en\x27\x7d" ∧
    strContains (get_user_profile "user_123") "Alice" ∧
    strContains (get_user_profile "user_123")
      "\x7b\x27theme\x27: \x27dark\x27, \x27language\x27: \x27en\x27\x7d" := by
  refine ⟨rfl, by decide, by decide⟩

/-- C4: for every `user_id` that is neither "user_123" nor "user_456",
`get_user_profile user_id` is the fixed string containing "Unknown" and the
empty-dict representation. -/
theorem get_user_profile_unknown (user_id : String)
    (h1 : user_id ≠ "user_123") (h2 : user_id ≠ "user_456") :
    get_user_profile user_id = "User: Unknown, Prefs: \x7b\x7d" ∧
    strContains (get_user_profile user_id) "Unknown" ∧
    strContains (get_user_profile user_id) "\x7b\x7d" := by
  have b1 : (user_id == "user_123") = false := beq_eq_false_iff_ne.mpr h1
  have b2 : (user_id == "user_456") = false := beq_eq_false_iff_ne.mpr h2
  have l0 : List.lookup user_id profiles = none := by
    simp [profiles, List.lookup, b1, b2]
  have he : get_user_profile user_id = "User: Unknown, Prefs: \x7b\x7d" := by
    unfold get_user_profile get_user_profile_in dictGet
    rw [l0]
    rfl
  exact ⟨he, by rw [he]; decide, by rw [he]; decide⟩

/-- Witness for C4 at the concrete input `"user_999"`. -/
theorem get_user_profile_unknown_witness :
    get_user_profile "user_999" = "User: Unknown, Prefs: \x7b\x7d" ∧
    strContains (get_user_profile "user_999") "Unknown" ∧
    strContains (get_user_profile "user_999") "\x7b\x7d" :=
  get_user_profile_unknown "user_999" (by decide) (by decide)

/-- C5: for every triple of strings, `save_user_preference uid key value`
contains `uid`, `key` and `value` verbatim as substrings (empty strings
included). -/
theorem save_user_preference_contains (uid key value : String) :
    strContains (save_user_preference uid key value) uid ∧
    strContains (save_user_preference uid key value) key ∧
    strContains (save_user_preference uid key value) value := by
  refine ⟨?_, ?_, ?_⟩
  · exact strContains_append_right _ value uid
      (strContains_append_right _ ": " uid
        (strContains_append_right _ key uid
          (strContains_append_right _ " - " uid
            (strContains_append_left "Saved preference: " uid uid
              (strContains_self uid)))))
  · exact strContains_append_right _ value key
      (strContains_append_right _ ": " key
        (strContains_append_left _ key key (strContains_self key)))
  · exact strContains_append_left _ value value (strContains_self value)

/-- C7: the three registered tool handlers are deterministic: two calls of
the same handler with equal arguments return equal strings.  The handlers
are embedded as pure functions because their Python bodies are straight-line
expressions with no assignment, no global access and no I/O, so
side-effect-freedom holds by construction of the embedding. -/
theorem tool_handlers_pure
    (l1 l2 u1 u2 a1 a2 k1 k2 v1 v2 : String)
    (hl : l1 = l2) (hu : u1 = u2) (ha : a1 = a2) (hk : k1 = k2) (hv : v1 = v2) :
    get_weather l1 = get_weather l2 ∧
    get_user_profile u1 = get_user_profile u2 ∧
    save_user_preference a1 k1 v1 = save_user_preference a2 k2 v2 := by
  subst hl hu ha hk hv
  exact ⟨rfl, rfl, rfl⟩

/-- Witness for C7 at concrete arguments. -/
theorem tool_handlers_pure_witness :
    get_weather "Tokyo" = get_weather "Tokyo" ∧
    get_user_profile "user_123" = get_user_profile "user_123" ∧
    save_user_preference "user_123" "theme" "dark"
      = save_user_preference "user_123" "theme" "dark" :=
  tool_handlers_pure "Tokyo" "Tokyo" "user_123" "user_123" "user_123"
    "user_123" "theme" "theme" "dark" "dark" rfl rfl rfl rfl rfl

/-- C8: the client configuration is exactly the values of the three
environment variables MODEL_NAME, BASE_URL and API_KEY, read with no
default (an unset variable stays `none`, nothing validates it), and it is
independent of every other environment variable: two environments agreeing
on those three keys yield equal configurations. -/
theorem configureModel_reads_exactly_three :
    (∀ env : Env,
      (configureModel env).model = env "MODEL_NAME" ∧
      (configureModel env).base_url = env "BASE_URL" ∧
      (configureModel env).api_key = env "API_KEY") ∧
    (∀ env1 env2 : Env,
      env1 "MODEL_NAME" = env2 "MODEL_NAME" →
      env1 "BASE_URL" = env2 "BASE_URL" →
      env1 "API_KEY" = env2 "API_KEY" →
      configureModel env1 = configureModel env2) := by
  constructor
  · intro env
    exact ⟨rfl, rfl, rfl⟩
  · intro env1 env2 hm hb hk
    unfold configureModel os_getenv
    rw [hm, hb, hk]

/-- An environment holding only the three variables the scripts read. -/
def envA : Env := fun k =>
  if k = "MODEL_NAME" then some "gpt-4o" else
  if k = "BASE_URL" then some "https://example.test/v1" else
  if k = "API_KEY" then some "sk-test" else none

/-- `envA` with an unrelated variable added. -/
def envB : Env := fun k =>
  if k = "HOME" then some "/home/alice" else envA k

/-- Witness for C8: `envA` and `envB` differ only on HOME, and the
configurations coincide. -/
theorem configureModel_reads_exactly_three_witness :
    configureModel envA = configureModel envB ∧
    (configureModel envA).model = envA "MODEL_NAME" :=
  ⟨configureModel_reads_exactly_three.2 envA envB (by decide) (by decide)
      (by decide),
   (configureModel_reads_exactly_three.1 envA).1⟩

/-- C9: `get_user_profile` is total: run in the `Except` model of Python
evaluation, where absent-key subscripting would raise `KeyError`, it
returns `ok` for every `user_id` and every profile table (profiles lacking
a name or preferences entry included), because every dict access in its
body is a defaulted `.get`. -/
theorem get_user_profile_total
    (table : List (String × List (String × PyField))) (user_id : String) :
    get_user_profile_run table user_id
      = Except.ok (get_user_profile_in table user_id) ∧
    (∃ s : String, get_user_profile_run table user_id = Except.ok s) ∧
    get_user_profile_run profiles user_id
      = Except.ok (get_user_profile user_id) :=
  ⟨rfl, ⟨get_user_profile_in table user_id, rfl⟩, rfl⟩

/-- C1: two invocations with the same thread identifier: the first call's
returned history is a prefix of the second call's history, and when the
second call carries at least one new user message its history is strictly
longer; no prior message is dropped. -/
theorem invoke_same_thread_extends
    (store : Store) (t : String)
    (input1 reply1 input2 reply2 : List Message)
    (h : input2 ≠ []) :
    (invoke store (some t) input1 reply1).1 <+:
      (invoke (invoke store (some t) input1 reply1).2 (some t) input2 reply2).1 ∧
    ((invoke store (some t) input1 reply1).1).length <
      ((invoke (invoke store (some t) input1 reply1).2 (some t) input2 reply2).1).length := by
  have hl : Store.history
      ((t, Store.history store t ++ input1 ++ reply1) :: store) t
      = Store.history store t ++ input1 ++ reply1 := by
    simp [Store.history, List.lookup]
  constructor
  · show Store.history store t ++ input1 ++ reply1 <+:
      Store.history ((t, Store.history store t ++ input1 ++ reply1) :: store) t
        ++ input2 ++ reply2
    rw [hl]
    generalize Store.history store t ++ input1 ++ reply1 = h1
    rw [List.append_assoc]
    exact List.prefix_append _ _
  · show (Store.history store t ++ input1 ++ reply1).length <
      (Store.history ((t, Store.history store t ++ input1 ++ reply1) :: store) t
        ++ input2 ++ reply2).length
    rw [hl]
    have hp : 0 < input2.length := List.length_pos.mpr h
    simp only [List.length_append]
    omega

/-- Witness for C1: two concrete invocations on thread "thread_001" from
the empty store. -/
theorem invoke_same_thread_extends_witness :
    (invoke [] (some "thread_001")
        [⟨"user", "Hi, my name is Alice and I prefer dark theme"⟩]
        [⟨"assistant", "Nice to meet you, Alice"⟩]).1 <+:
      (invoke
        (invoke [] (some "thread_001")
          [⟨"user", "Hi, my name is Alice and I prefer dark theme"⟩]
          [⟨"assistant", "Nice to meet you, Alice"⟩]).2
        (some "thread_001")
        [⟨"user", "What theme do you think I prefer?"⟩]
        [⟨"assistant", "Dark theme"⟩]).1 ∧
    ((invoke [] (some "thread_001")
        [⟨"user", "Hi, my name is Alice and I prefer dark theme"⟩]
        [⟨"assistant", "Nice to meet you, Alice"⟩]).1).length <
      ((invoke
        (invoke [] (some "thread_001")
          [⟨"user", "Hi, my name is Alice and I prefer dark theme"⟩]
          [⟨"assistant", "Nice to meet you, Alice"⟩]).2
        (some "thread_001")
        [⟨"user", "What theme do you think I prefer?"⟩]
        [⟨"assistant", "Dark theme"⟩]).1).length :=
  invoke_same_thread_extends [] "thread_001"
    [⟨"user", "Hi, my name is Alice and I prefer dark theme"⟩]
    [⟨"assistant", "Nice to meet you, Alice"⟩]
    [⟨"user", "What theme do you think I prefer?"⟩]
    [⟨"assistant", "Dark theme"⟩]
    (by decide)

/-- C6: without a thread identifier an invocation's history is exactly its
own turns and the store is untouched; and with two different thread
identifiers, a call on the second thread (never seen by the store) returns
only its own turns, carrying nothing from the first thread. -/
theorem invoke_no_carry_across_threads
    (store : Store) (input reply : List Message)
    (t1 t2 : String) (input1 reply1 input2 reply2 : List Message)
    (hne : t1 ≠ t2) (h2 : Store.history store t2 = []) :
    (invoke store none input reply).1 = input ++ reply ∧
    (invoke store none input reply).2 = store ∧
    (invoke (invoke store (some t1) input1 reply1).2 (some t2) input2 reply2).1
      = input2 ++ reply2 := by
  refine ⟨rfl, rfl, ?_⟩
  show Store.history ((t1, Store.history store t1 ++ input1 ++ reply1) :: store) t2
      ++ input2 ++ reply2 = input2 ++ reply2
  have hb : (t2 == t1) = false := beq_eq_false_iff_ne.mpr (Ne.symm hne)
  have hs : Store.history
      ((t1, Store.history store t1 ++ input1 ++ reply1) :: store) t2
      = Store.history store t2 := by
    simp [Store.history, List.lookup, hb]
  rw [hs, h2, List.nil_append]

/-- Witness for C6: concrete calls without a thread id and on two distinct
threads from the empty store. -/
theorem invoke_no_carry_across_threads_witness :
    (invoke [] none [⟨"user", "What is the weather in Tokyo?"⟩]
        [⟨"assistant", "The weather in Tokyo is sunny."⟩]).1
      = [⟨"user", "What is the weather in Tokyo?"⟩]
          ++ [⟨"assistant", "The weather in Tokyo is sunny."⟩] ∧
    (invoke [] none [⟨"user", "What is the weather in Tokyo?"⟩]
        [⟨"assistant", "The weather in Tokyo is sunny."⟩]).2 = [] ∧
    (invoke (invoke [] (some "thread_001")
        [⟨"user", "Hi"⟩] [⟨"assistant", "Hello"⟩]).2
      (some "thread_002") [⟨"user", "Who am I?"⟩]
      [⟨"assistant", "I do not know"⟩]).1
      = [⟨"user", "Who am I?"⟩] ++ [⟨"assistant", "I do not know"⟩] :=
  invoke_no_carry_across_threads [] [⟨"user", "What is the weather in Tokyo?"⟩]
    [⟨"assistant", "The weather in Tokyo is sunny."⟩]
    "thread_001" "thread_002" [⟨"user", "Hi"⟩] [⟨"assistant", "Hello"⟩]
    [⟨"user", "Who am I?"⟩] [⟨"assistant", "I do not know"⟩]
    (by decide) (by decide)

end LearnLangchain
